import Mathlib

/-!
Shallow embedding of the Acontext core session-message pipeline.

Source files embedded (paths relative to the repository root):
- `src/server/core/acontext_core/schema/session/message.py`
  (`STRING_TYPES`, `pack_message_line`, `MessageBlob.to_string`)
- `src/server/core/api.py` (the `/health` endpoint)
- `src/server/core/acontext_core/service/data/project.py` (`get_project_config`)
- `src/server/core/acontext_core/service/controller/message.py`
  (`process_session_pending_message`)

Python dict access that may raise `KeyError`, and `str.join` over a list that
may hold `None` (which raises `TypeError`), are modelled with `Except String`.
Collaborator pieces of this repository whose source is not available
(`schema/result.py`, `schema/orm.py`, `schema/session/task.py`,
`schema/config.py`, `util/config.py`, `service/data/message.py`) are modelled
from the specification; each such definition carries a doc comment starting
with `Modelled from the spec:`.
-/

namespace Acontext

/-- Modelled from the spec: `schema/result.py` is not in the sources. §4.1: a
Result is exactly one of a success payload of type T, or a rejection carrying a
list of error descriptions. -/
inductive Result (α : Type) where
  | resolve (payload : α)
  | reject (errors : List String)
deriving DecidableEq, Repr

/-- Modelled from the spec: §4.1 "`unpack()` returns `(payload_or_none, error_list)`". -/
def Result.unpack {α : Type} : Result α → Option α × List String
  | Result.resolve a => (some a, [])
  | Result.reject es => (none, es)

/-- Modelled from the spec: the ORM `Part` class (`schema/orm.py`) is not in
the sources. §3: a Part is a tagged variant over kinds; the renderer in
`message.py` reads `part.type`, `part.filename`, `part.text` and the metadata
mapping `part.meta` (a Python dict, modelled as an association list). -/
structure Part where
  type : String
  filename : String := ""
  text : String := ""
  meta : List (String × String) := []
deriving DecidableEq, Repr

/-- Python `d[k]` on a dict: the value at the first matching key, or a
`KeyError` when the key is absent. -/
def dictGet (d : List (String × String)) (k : String) : Except String String :=
  match d.find? (fun kv => kv.1 == k) with
  | some kv => Except.ok kv.2
  | none => Except.error ("KeyError: " ++ k)

/-- `STRING_TYPES = {"text", "tool-call", "tool-result"}` from
`schema/session/message.py` (a set; only membership is used). -/
def STRING_TYPES : List String := ["text", "tool-call", "tool-result"]

/-- `pack_message_line(role, part)` from `schema/session/message.py`.
The Python function is annotated `-> str` but has no `else` branch: a part of
kind `tool-result` matches no branch and the function returns `None`, modelled
as `Except.ok none`. A `KeyError` raised by `part.meta[...]` on the tool-call
branch is modelled as `Except.error`. -/
def pack_message_line (role : String) (part : Part) : Except String (Option String) :=
  if !(STRING_TYPES.contains part.type) then
    Except.ok (some ("<" ++ role ++ "> [" ++ part.type ++ " file: " ++ part.filename ++ "]"))
  else if part.type == "text" then
    Except.ok (some ("<" ++ role ++ "> " ++ part.text))
  else if part.type == "tool-call" then
    match dictGet part.meta "function_name", dictGet part.meta "parameters" with
    | Except.ok fn, Except.ok ps =>
        Except.ok (some ("<" ++ role ++ "> USE TOOL " ++ fn ++ ", WITH PARAMS " ++ ps))
    | Except.error e, _ => Except.error e
    | _, Except.error e => Except.error e
  else
    Except.ok none

/-- `MessageBlob` from `schema/session/message.py`: an immutable snapshot of a
message's `(message_id, role, parts)`; `asUUID` identifiers are modelled as
strings. -/
structure MessageBlob where
  message_id : String
  role : String
  parts : List Part
deriving DecidableEq, Repr

/-- A Python list comprehension over a fallible element expression: elements
are evaluated left to right and the first raised exception propagates. -/
def mapExcept {α β : Type} (f : α → Except String β) : List α → Except String (List β)
  | [] => Except.ok []
  | a :: t =>
    match f a, mapExcept f t with
    | Except.error e, _ => Except.error e
    | Except.ok _, Except.error e => Except.error e
    | Except.ok b, Except.ok bs => Except.ok (b :: bs)

/-- The item scan of Python `str.join`: items are checked left to right and a
non-string item (here `none`, Python `None`) raises `TypeError`. -/
def strItems : List (Option String) → Except String (List String)
  | [] => Except.ok []
  | none :: _ =>
      Except.error "TypeError: sequence item: expected str instance, NoneType found"
  | some s :: t =>
    match strItems t with
    | Except.error e => Except.error e
    | Except.ok ls => Except.ok (s :: ls)

/-- Python `sep.join(lines)` over a list whose items may be `None`: raises
`TypeError` when any item is not a string, otherwise concatenates with the
separator. -/
def pyJoin (sep : String) (lines : List (Option String)) : Except String String :=
  match strItems lines with
  | Except.error e => Except.error e
  | Except.ok ls => Except.ok (String.intercalate sep ls)

/-- `MessageBlob.to_string` from `schema/session/message.py`: build the list of
`pack_message_line` results for each part (a `KeyError` propagates), then join
them with newlines (a `None` line makes the join raise `TypeError`). -/
def MessageBlob.to_string (m : MessageBlob) : Except String String :=
  match mapExcept (fun p => pack_message_line m.role p) m.parts with
  | Except.error e => Except.error e
  | Except.ok lines => pyJoin "\n" lines

/-- The `/health` endpoint of `src/server/core/api.py`. Each collaborator's
`health_check()` result is passed in as a boolean; the endpoint checks the
queue client, the storage client and the blob-store client in that order and
returns the first failure label, or `"ok"`. -/
def health (mq_ok db_ok s3_ok : Bool) : String :=
  if !mq_ok then "MQ consumer error"
  else if !db_ok then "DB client error"
  else if !s3_ok then "S3 client error"
  else "ok"

/-- Modelled from the spec: `schema/session/task.py` is not in the sources.
§3: "TaskStatus: enum `{PENDING, RUNNING, COMPLETED, FAILED}`". -/
inductive TaskStatus where
  | PENDING
  | RUNNING
  | COMPLETED
  | FAILED
deriving DecidableEq, Repr

/-- Modelled from the spec: the stored `.value` of each status; the fetcher is
called with the literal string `"pending"`, so values are the lowercase names. -/
def TaskStatus.value : TaskStatus → String
  | TaskStatus.PENDING => "pending"
  | TaskStatus.RUNNING => "running"
  | TaskStatus.COMPLETED => "completed"
  | TaskStatus.FAILED => "failed"

/-- Modelled from the spec: the ORM `Message` class (`schema/orm.py`) is not in
the sources. §3: a message has an identifier, a role, an ordered sequence of
Parts and a processing status; the controller reads `m.id`, `m.role`,
`m.parts` and writes `m.session_task_process_status`. Messages are scoped to a
session via `session_id`. -/
structure Message where
  id : String
  session_id : String
  role : String
  parts : List Part
  session_task_process_status : String
deriving DecidableEq, Repr

/-- The storage predicate of the pending-message fetch: scoped to the exact
`session_id` and `status`. -/
def fetchPred (session_id status : String) (m : Message) : Bool :=
  m.session_id == session_id && m.session_task_process_status == status

/-- Modelled from the spec: `service/data/message.py` is not in the sources.
§4.4: `fetch(session_id, status) -> Result<ordered sequence of Message>`;
success with an empty sequence when no messages match, a rejection only on a
storage-layer fault. The database is a creation-ordered list of message rows
and a storage fault is injected through the `fault` argument. -/
def fetch_session_messages (db : List Message) (session_id status : String)
    (fault : Option String) : Result (List Message) :=
  match fault with
  | some e => Result.reject [e]
  | none => Result.resolve (db.filter (fetchPred session_id status))

/-- The ORM write `m.session_task_process_status = TaskStatus.RUNNING.value`
performed by the controller on each fetched message. -/
def markRunning (m : Message) : Message :=
  { m with session_task_process_status := TaskStatus.RUNNING.value }

/-- Equality of `Except` values is decidable componentwise. -/
instance {ε α : Type} [DecidableEq ε] [DecidableEq α] : DecidableEq (Except ε α)
  | Except.error e, Except.error f =>
      if h : e = f then isTrue (by rw [h]) else isFalse (by intro hc; cases hc; exact h rfl)
  | Except.error _, Except.ok _ => isFalse (by intro h; cases h)
  | Except.ok _, Except.error _ => isFalse (by intro h; cases h)
  | Except.ok a, Except.ok b =>
      if h : a = b then isTrue (by rw [h]) else isFalse (by intro hc; cases hc; exact h rfl)

/-- Observable outcome of one `process_session_pending_message` invocation:
the database rows after the transaction closes, the `MessageBlob` snapshots
materialized inside the transaction, the transcripts printed after it, and
whether the invocation aborted on a fetch rejection. -/
structure ProcOutcome where
  db_after : List Message
  snapshots : List MessageBlob
  printed : List (Except String String)
  aborted : Bool
deriving DecidableEq, Repr

/-- `process_session_pending_message(session_id)` from
`service/controller/message.py`. The fetch result is unpacked; a non-empty
error list is logged and the invocation returns at once. Otherwise every
fetched row's status is set to `TaskStatus.RUNNING.value` (a write-through on
the rows matched by the fetch predicate), `MessageBlob(message_id=m.id,
role=m.role, parts=m.parts)` snapshots are built in fetch order while the
transaction is still open, and after the transaction closes each snapshot's
`to_string()` is printed. -/
def process_session_pending_message (db : List Message) (session_id : String)
    (fault : Option String) : ProcOutcome :=
  let r := fetch_session_messages db session_id "pending" fault
  match r.unpack with
  | (_, _ :: _) =>
      { db_after := db, snapshots := [], printed := [], aborted := true }
  | (payload, []) =>
      let messages := payload.getD []
      let db2 := db.map (fun m => if fetchPred session_id "pending" m then markRunning m else m)
      let messages_data := (messages.map markRunning).map
        (fun m => MessageBlob.mk m.id m.role m.parts)
      { db_after := db2
        snapshots := messages_data
        printed := messages_data.map MessageBlob.to_string
        aborted := false }

/-- Modelled from the spec: `schema/config.py` is not in the sources. The
internal shape of a project configuration is irrelevant to the claims, so it is
an association list of settings. -/
structure ProjectConfig where
  settings : List (String × String)
deriving DecidableEq, Repr

/-- Modelled from the spec: `util/config.py` is not in the sources; the default
project config is a fixed constant. -/
def DEFAULT_PROJECT_CONFIG : ProjectConfig := { settings := [] }

/-- Modelled from the spec: the ORM `Project` class read by
`get_project_config` is not in the sources; the function reads `project.id`
and `project.configs`, a nullable JSON dict whose `"project_config"` entry is
the stored project configuration. -/
structure Project where
  id : String
  configs : Option (List (String × ProjectConfig))
deriving DecidableEq, Repr

/-- `get_project_config(db_session, project_id)` from
`service/data/project.py`. The `select ... where Project.id == project_id`
query with `.first()` is the first matching row of the database list; a
missing row is rejected with `"Project not found: {project_id}"`; a falsy
`configs` (NULL or empty dict) or an absent `"project_config"` key resolves to
the default config; otherwise the stored config is resolved. -/
def get_project_config (db : List Project) (project_id : String) : Result ProjectConfig :=
  match db.find? (fun p => p.id == project_id) with
  | none => Result.reject ["Project not found: " ++ project_id]
  | some project =>
    match project.configs with
    | none => Result.resolve DEFAULT_PROJECT_CONFIG
    | some cfgs =>
      if cfgs.isEmpty then Result.resolve DEFAULT_PROJECT_CONFIG
      else
        match cfgs.find? (fun kv => kv.1 == "project_config") with
        | none => Result.resolve DEFAULT_PROJECT_CONFIG
        | some kv => Result.resolve kv.2

/-- The falsy-or-missing-key test of `get_project_config`: true when
`not project.configs or "project_config" not in project.configs` holds. -/
def noStoredProjectConfig (p : Project) : Bool :=
  match p.configs with
  | none => true
  | some cfgs => cfgs.isEmpty || (cfgs.find? (fun kv => kv.1 == "project_config")).isNone

/-! Helper lemmas shared by the claim theorems below. -/

/-- A part whose kind is outside `STRING_TYPES` takes the first branch of
`pack_message_line`: the generic file-line format. -/
lemma pack_message_line_of_not_string_type (role : String) (p : Part)
    (h : STRING_TYPES.contains p.type = false) :
    pack_message_line role p
      = Except.ok (some ("<" ++ role ++ "> [" ++ p.type ++ " file: " ++ p.filename ++ "]")) := by
  unfold pack_message_line
  rw [h]
  rfl

/-- A `text` part takes the second branch of `pack_message_line`. -/
lemma pack_message_line_text (role : String) (p : Part) (h : p.type = "text") :
    pack_message_line role p = Except.ok (some ("<" ++ role ++ "> " ++ p.text)) := by
  unfold pack_message_line
  rw [h]
  rfl

/-- A `tool-call` part whose metadata lookups succeed takes the third branch
of `pack_message_line`. -/
lemma pack_message_line_tool_call (role : String) (p : Part) (fn ps : String)
    (h : p.type = "tool-call")
    (hfn : dictGet p.meta "function_name" = Except.ok fn)
    (hps : dictGet p.meta "parameters" = Except.ok ps) :
    pack_message_line role p
      = Except.ok (some ("<" ++ role ++ "> USE TOOL " ++ fn ++ ", WITH PARAMS " ++ ps)) := by
  unfold pack_message_line
  rw [h, hfn, hps]
  rfl

/-- A `tool-result` part matches no branch of `pack_message_line` and falls
through to the implicit Python `None`. -/
lemma pack_message_line_tool_result (role : String) (p : Part) (h : p.type = "tool-result") :
    pack_message_line role p = Except.ok none := by
  unfold pack_message_line
  rw [h]
  rfl

/-- The join item scan succeeds on a list of genuine strings. -/
lemma strItems_map_some (l : List String) : strItems (l.map some) = Except.ok l := by
  induction l with
  | nil => rfl
  | cons a t ih => simp [strItems, ih]

/-- If every part renders to an actual line, the whole comprehension succeeds
with a list of actual lines. -/
lemma mapExcept_all_some (role : String) (ps : List Part)
    (h : ∀ p ∈ ps, ∃ l, pack_message_line role p = Except.ok (some l)) :
    ∃ ls : List String,
      mapExcept (fun p => pack_message_line role p) ps = Except.ok (ls.map some) := by
  induction ps with
  | nil => exact ⟨[], rfl⟩
  | cons a t ih =>
    obtain ⟨l, hl⟩ := h a (List.mem_cons_self a t)
    obtain ⟨ls, hls⟩ := ih (fun p hp => h p (List.mem_cons_of_mem a hp))
    exact ⟨l :: ls, by simp [mapExcept, hl, hls]⟩

/-- Every part that is not a `tool-result`, and whose metadata lookups succeed
when it is a `tool-call`, renders to an actual line. -/
lemma pack_message_line_ok_of_not_tool_result (role : String) (p : Part)
    (h1 : p.type ≠ "tool-result")
    (h2 : p.type = "tool-call" →
      (∃ fn, dictGet p.meta "function_name" = Except.ok fn) ∧
      (∃ ps, dictGet p.meta "parameters" = Except.ok ps)) :
    ∃ l, pack_message_line role p = Except.ok (some l) := by
  by_cases ht : p.type = "text"
  · exact ⟨_, pack_message_line_text role p ht⟩
  by_cases hc : p.type = "tool-call"
  · obtain ⟨⟨fn, hfn⟩, ⟨ps, hps⟩⟩ := h2 hc
    exact ⟨_, pack_message_line_tool_call role p fn ps hc hfn hps⟩
  have hnc : STRING_TYPES.contains p.type = false := by
    simp [STRING_TYPES, ht, hc, h1]
  exact ⟨_, pack_message_line_of_not_string_type role p hnc⟩

/-- When the per-part comprehension yields exactly the lines `lines` (all of
them actual strings), `to_string` is their newline join. -/
lemma to_string_eq_join (m : MessageBlob) (lines : List String)
    (h : mapExcept (fun p => pack_message_line m.role p) m.parts
      = Except.ok (lines.map some)) :
    m.to_string = Except.ok (String.intercalate "\n" lines) := by
  simp only [MessageBlob.to_string, h, pyJoin, strItems_map_some]

/-! Claim theorems. -/

/-- C1: when the pending-message fetch succeeds (no injected storage fault),
`process_session_pending_message` does not abort, materializes — in fetch
order, from the rows as they stood inside the transaction — one immutable
`(id, role, parts)` snapshot per fetched message, and every fetched (pending,
session-scoped) row appears in the post-transaction database with its status
set to `TaskStatus.RUNNING.value`. The in-transaction timing of the claim is
represented structurally: `snapshots` and `db_after` are both produced by the
transactional block of the model. -/
theorem process_claims_and_snapshots_pending_messages :
    ∀ (db : List Message) (session_id : String),
      (process_session_pending_message db session_id none).aborted = false ∧
      (process_session_pending_message db session_id none).snapshots
        = (db.filter (fetchPred session_id "pending")).map
            (fun m => MessageBlob.mk m.id m.role m.parts) ∧
      (∀ m, m ∈ db → fetchPred session_id "pending" m = true →
        { m with session_task_process_status := TaskStatus.RUNNING.value }
          ∈ (process_session_pending_message db session_id none).db_after) := by
  intro db sid
  refine ⟨rfl, ?_, ?_⟩
  · show ((db.filter (fetchPred sid "pending")).map markRunning).map
        (fun m => MessageBlob.mk m.id m.role m.parts)
      = (db.filter (fetchPred sid "pending")).map (fun m => MessageBlob.mk m.id m.role m.parts)
    rw [List.map_map]
    rfl
  · intro m hm hpred
    show { m with session_task_process_status := TaskStatus.RUNNING.value }
      ∈ db.map (fun x => if fetchPred sid "pending" x then markRunning x else x)
    have h2 := List.mem_map_of_mem
      (fun x => if fetchPred sid "pending" x then markRunning x else x) hm
    simpa [markRunning, hpred] using h2

/-- Witness for C1: a single pending message of session `s1` is claimed — it
reappears after the invocation with status `running`. -/
theorem process_claims_and_snapshots_pending_messages_witness :
    Message.mk "m1" "s1" "user" [Part.mk "text" "" "hi" []] "running"
      ∈ (process_session_pending_message
          [Message.mk "m1" "s1" "user" [Part.mk "text" "" "hi" []] "pending"]
          "s1" none).db_after :=
  (process_claims_and_snapshots_pending_messages
      [Message.mk "m1" "s1" "user" [Part.mk "text" "" "hi" []] "pending"] "s1").2.2
    (Message.mk "m1" "s1" "user" [Part.mk "text" "" "hi" []] "pending")
    (List.mem_singleton.mpr rfl) (by decide)

/-- C2: the health endpoint answers `"ok"` iff all three collaborator checks
(queue, storage, blob store) pass, and otherwise answers the failure label of
the first unhealthy collaborator in check order. -/
theorem health_ok_iff_all_collaborators_healthy :
    ∀ mq db s3 : Bool,
      (health mq db s3 = "ok" ↔ (mq && db && s3) = true) ∧
      (mq = false → health mq db s3 = "MQ consumer error") ∧
      (mq = true → db = false → health mq db s3 = "DB client error") ∧
      (mq = true → db = true → s3 = false → health mq db s3 = "S3 client error") := by
  decide

/-- Witness for C2: with only the storage check failing, the endpoint answers
the storage failure label. -/
theorem health_ok_iff_all_collaborators_healthy_witness :
    health true false true = "DB client error" :=
  (health_ok_iff_all_collaborators_healthy true false true).2.2.1 rfl rfl

/-- C3: on a fetch rejection, `process_session_pending_message` returns
immediately after logging: the database is untouched (no status becomes
RUNNING), no snapshot is materialized and no transcript is printed. -/
theorem process_aborts_on_fetch_rejection :
    ∀ (db : List Message) (session_id e : String),
      process_session_pending_message db session_id (some e)
        = { db_after := db, snapshots := [], printed := [], aborted := true } := by
  intro db sid e
  rfl

/-- Counterexample for C4: with no matching project row (a not-found
condition), `get_project_config` returns a rejection — not a successful Result
carrying the default config as the claim states. -/
theorem get_project_config_rejects_missing_project :
    get_project_config [] "p1" = Result.reject ["Project not found: p1"] := rfl

/-- C4 (amended): a missing project config (NULL, empty, or lacking the
`"project_config"` key) resolves to the default project config, but a missing
project row is rejected with `"Project not found: {project_id}"`. -/
theorem get_project_config_default_or_reject :
    ∀ (db : List Project) (project_id : String),
      (db.find? (fun p => p.id == project_id) = none →
        get_project_config db project_id
          = Result.reject ["Project not found: " ++ project_id]) ∧
      (∀ proj, db.find? (fun p => p.id == project_id) = some proj →
        noStoredProjectConfig proj = true →
        get_project_config db project_id = Result.resolve DEFAULT_PROJECT_CONFIG) := by
  intro db pid
  constructor
  · intro h
    unfold get_project_config
    rw [h]
  · intro proj h hcfg
    simp only [get_project_config, h]
    unfold noStoredProjectConfig at hcfg
    cases hp : proj.configs with
    | none => simp [hp]
    | some cfgs =>
      rw [hp] at hcfg
      simp only at hcfg
      by_cases he : cfgs.isEmpty = true
      · cases cfgs with
        | nil => simp [hp]
        | cons a t => exact absurd he (by simp)
      · have hef : cfgs.isEmpty = false := by
          cases hemp : cfgs.isEmpty with
          | false => rfl
          | true => exact absurd hemp he
        have hn : (cfgs.find? (fun kv => kv.1 == "project_config")) = none := by
          rcases Bool.or_eq_true_iff.mp hcfg with h1 | h1
          · exact absurd h1 he
          · exact Option.isNone_iff_eq_none.mp h1
        simp [hp, hef, hn]

/-- Witness for C4 (amended): a project row with NULL configs resolves to the
default project config. -/
theorem get_project_config_default_or_reject_witness :
    get_project_config [Project.mk "p1" none] "p1" = Result.resolve DEFAULT_PROJECT_CONFIG :=
  (get_project_config_default_or_reject [Project.mk "p1" none] "p1").2
    (Project.mk "p1" none) (by decide) rfl

/-- Counterexample for C5: a message holding one `tool-result` part makes
`to_string` raise `TypeError` — `pack_message_line` falls through to `None`
and Python `str.join` rejects a `None` item — contradicting "completes and
returns a string" for every list of parts of any kinds. -/
theorem to_string_raises_on_tool_result_part :
    (MessageBlob.mk "m1" "user" [Part.mk "tool-result" "" "" []]).to_string
      = Except.error "TypeError: sequence item: expected str instance, NoneType found" := by
  decide

/-- C5 (amended): `to_string` completes and returns a string for every role
and every list of parts that holds no `tool-result` part and whose `tool-call`
parts carry `function_name` and `parameters` in their metadata; a part of
unrecognized kind degrades to the generic file-line format rather than an
error. -/
theorem to_string_total_without_tool_result_parts :
    ∀ (m : MessageBlob),
      (∀ p ∈ m.parts, p.type ≠ "tool-result") →
      (∀ p ∈ m.parts, p.type = "tool-call" →
        (∃ fn, dictGet p.meta "function_name" = Except.ok fn) ∧
        (∃ ps, dictGet p.meta "parameters" = Except.ok ps)) →
      (∃ s, m.to_string = Except.ok s) ∧
      (∀ p ∈ m.parts, STRING_TYPES.contains p.type = false →
        pack_message_line m.role p
          = Except.ok (some ("<" ++ m.role ++ "> [" ++ p.type ++ " file: " ++ p.filename ++ "]"))) := by
  intro m h1 h2
  constructor
  · obtain ⟨ls, hls⟩ := mapExcept_all_some m.role m.parts
      (fun p hp => pack_message_line_ok_of_not_tool_result m.role p (h1 p hp) (h2 p hp))
    exact ⟨String.intercalate "\n" ls, to_string_eq_join m ls hls⟩
  · intro p _ hk
    exact pack_message_line_of_not_string_type m.role p hk

/-- Witness for C5 (amended): a message with one part of the unrecognized kind
`image` renders to some string. -/
theorem to_string_total_without_tool_result_parts_witness :
    ∃ s, (MessageBlob.mk "m1" "user" [Part.mk "image" "a.png" "" []]).to_string = Except.ok s :=
  (to_string_total_without_tool_result_parts
      (MessageBlob.mk "m1" "user" [Part.mk "image" "a.png" "" []])
      (by decide)
      (by intro p hp hk; exact absurd (List.mem_singleton.mp hp ▸ hk) (by decide))).1

/-- C6: the rendering rules of `pack_message_line`, in branch order — an
unrecognized kind yields the generic file line, `text` yields the plain line,
and `tool-call` (with its two metadata lookups succeeding) yields the
USE-TOOL line. -/
theorem pack_message_line_rules_in_order :
    ∀ (role : String) (part : Part),
      (STRING_TYPES.contains part.type = false →
        pack_message_line role part
          = Except.ok (some ("<" ++ role ++ "> [" ++ part.type ++ " file: " ++ part.filename ++ "]"))) ∧
      (part.type = "text" →
        pack_message_line role part = Except.ok (some ("<" ++ role ++ "> " ++ part.text))) ∧
      (∀ fn ps, part.type = "tool-call" →
        dictGet part.meta "function_name" = Except.ok fn →
        dictGet part.meta "parameters" = Except.ok ps →
        pack_message_line role part
          = Except.ok (some ("<" ++ role ++ "> USE TOOL " ++ fn ++ ", WITH PARAMS " ++ ps))) :=
  fun role part =>
    ⟨pack_message_line_of_not_string_type role part,
     pack_message_line_text role part,
     fun fn ps h hfn hps => pack_message_line_tool_call role part fn ps h hfn hps⟩

/-- Witness for C6: a part of kind `file` renders to the generic file line. -/
theorem pack_message_line_rules_in_order_witness :
    pack_message_line "user" (Part.mk "file" "a.png" "" [])
      = Except.ok (some "<user> [file file: a.png]") :=
  (pack_message_line_rules_in_order "user" (Part.mk "file" "a.png" "" [])).1 (by decide)

/-- C7: a `tool-result` part matches no rendering branch; `pack_message_line`
falls through and produces no line (Python returns `None`). -/
theorem pack_message_line_tool_result_returns_none :
    ∀ (role : String) (part : Part), part.type = "tool-result" →
      pack_message_line role part = Except.ok none :=
  fun role part h => pack_message_line_tool_result role part h

/-- Witness for C7: the concrete `tool-result` part yields no line. -/
theorem pack_message_line_tool_result_returns_none_witness :
    pack_message_line "assistant" (Part.mk "tool-result" "" "" []) = Except.ok none :=
  pack_message_line_tool_result_returns_none "assistant" (Part.mk "tool-result" "" "" []) rfl

/-- C8: `to_string` is the newline join of the per-part `pack_message_line`
lines, in part order, and the single text part `hi` of role `user` renders to
the transcript `<user> hi`. -/
theorem to_string_is_newline_join_of_lines :
    (∀ (m : MessageBlob) (lines : List String),
        mapExcept (fun p => pack_message_line m.role p) m.parts
          = Except.ok (lines.map some) →
        m.to_string = Except.ok (String.intercalate "\n" lines)) ∧
      (MessageBlob.mk "m1" "user" [Part.mk "text" "" "hi" []]).to_string
        = Except.ok "<user> hi" :=
  ⟨fun m lines h => to_string_eq_join m lines h, by decide⟩

/-- Witness for C8: a one-part message whose line list is known joins to that
single line. -/
theorem to_string_is_newline_join_of_lines_witness :
    (MessageBlob.mk "m2" "assistant" [Part.mk "text" "" "yo" []]).to_string
      = Except.ok (String.intercalate "\n" ["<assistant> yo"]) :=
  to_string_is_newline_join_of_lines.1
    (MessageBlob.mk "m2" "assistant" [Part.mk "text" "" "yo" []]) ["<assistant> yo"] (by decide)

/-- C9: rendering is deterministic and reads nothing but `(role, parts)` — two
messages agreeing on role and parts (whatever their other fields) render
identically; the embedding is a pure function, so no state is mutated. -/
theorem to_string_depends_only_on_role_and_parts :
    ∀ (m1 m2 : MessageBlob), m1.role = m2.role → m1.parts = m2.parts →
      m1.to_string = m2.to_string := by
  intro m1 m2 hr hp
  unfold MessageBlob.to_string
  rw [hr, hp]

/-- Witness for C9: two messages equal up to their `message_id` render to the
same transcript. -/
theorem to_string_depends_only_on_role_and_parts_witness :
    (MessageBlob.mk "a" "user" [Part.mk "text" "" "hi" []]).to_string
      = (MessageBlob.mk "b" "user" [Part.mk "text" "" "hi" []]).to_string :=
  to_string_depends_only_on_role_and_parts
    (MessageBlob.mk "a" "user" [Part.mk "text" "" "hi" []])
    (MessageBlob.mk "b" "user" [Part.mk "text" "" "hi" []]) rfl rfl

/-- C10: a message with an empty parts list renders to the empty string (the
join of zero lines), for every role and identifier. -/
theorem to_string_empty_parts_is_empty_string :
    ∀ (message_id role : String),
      (MessageBlob.mk message_id role []).to_string = Except.ok "" := by
  intro mid role
  rfl

end Acontext
